import Mathlib

/-!
Verification of the user-management and authentication core of the
challenge-repo full-stack application.

The repository ships the test suites (`user.service.integration.spec.ts`,
`auth.service.unit.spec.ts`, auth integration specs) and helpers, while the
service implementations themselves (`users.service.ts`, `auth.service.ts`,
the bcrypt and JWT wrappers) are not part of the provided sources.  The
definitions below therefore model those services from the specification's
contracts (spec.md §3, §4.1, §4.2, §7), keeping the entity name `Users`,
the operation names and the fixed Portuguese error messages that the test
suites pin down.

External libraries are modelled shallowly:
* bcrypt: a symbolic salted one-way hash (`BHash`); `bcrypt.hash` pairs the
  salt with the plaintext it was derived from, `bcrypt.compare` checks a
  candidate against that record, and `BHash.render` is the string form such
  a hash occupies in the database column (a `$2b$10$salt$digest`-shaped
  string, never equal to the plaintext).
* JWT: a token is its payload plus issuance time, expiry and the signing
  secret; verification checks the secret and the expiry clock.  Random salt
  generation and the clock are passed explicitly as arguments, modelling
  their environmental nature.

Effects are explicit state passing: every mutating operation returns the
resulting store next to its `Except` outcome, and returns the store
unchanged on every failure path.
-/

/-- Role enumeration of a user, from `users.enums.ts` (`UserRole`):
`USER | ADMIN`, defaulting to `USER` at creation when unspecified. -/
inductive UserRole where
  | USER
  | ADMIN
deriving DecidableEq, Repr

/-- Modelled from the spec: a bcrypt hash, "one-way hash with per-record
salt" (§2 Password Hashing Service).  The symbolic record keeps the salt
and the plaintext the hash was derived from; the actual bcrypt library is
external to the repository. -/
structure BHash where
  salt : String
  digest : String
deriving DecidableEq, Repr

/-- Modelled from the spec: the string a bcrypt hash occupies in the
`password` column — a `$2b$10$<salt>$<digest>` shaped string (bcrypt's
modular-crypt format), which is what tests compare against the plaintext. -/
def BHash.render (h : BHash) : String :=
  "$2b$10$" ++ h.salt ++ "$" ++ h.digest

/-- Modelled from the spec: `bcrypt.hash(password, salt)` — hashing a
plaintext with a per-record salt (spec.md §2, §4.1 "hashed with a fresh
random salt before persistence"). -/
def bcrypt.hash (pw salt : String) : BHash :=
  ⟨salt, pw⟩

/-- Modelled from the spec: `bcrypt.compare(candidate, storedHash)` —
"verifies a plaintext candidate against a stored hash" (spec.md §2). -/
def bcrypt.compare (pw : String) (h : BHash) : Bool :=
  pw == h.digest

/-- Persistent user entity, from `users.entity.ts` (`Users`): id (generated
integer key), name, email (unique), password (stored only as a hash), role. -/
structure Users where
  id : Nat
  name : String
  email : String
  password : BHash
  role : UserRole
deriving DecidableEq, Repr

/-- A user record with the password field stripped, as returned by
`findOne`, `update` and both authentication flows (spec.md §4.1, §4.2:
"the password field stripped"). -/
structure PublicUser where
  id : Nat
  name : String
  email : String
  role : UserRole
deriving DecidableEq, Repr

/-- Strips the password field off a stored record (the
`const { password: _, ...rest } = user` idiom of the tests). -/
def Users.strip (u : Users) : PublicUser :=
  ⟨u.id, u.name, u.email, u.role⟩

/-- Modelled from the spec: the Credential Store state — the persisted user
rows plus the id generator ("identifier (integer, unique, generated on
creation)", spec.md §3). -/
structure Store where
  users : List Users
  nextId : Nat
deriving DecidableEq, Repr

/-- Modelled from the spec: the error taxonomy of §7 — `DuplicateEmail`,
`NotFound`, `EmptyUpdate`, `InvalidCredential`, `Unauthorized` — each kind
carrying its fixed user-facing message ("the messages are themselves part
of the contract, verified by tests"). -/
inductive AppError where
  | duplicateEmail (msg : String)
  | notFoundE (msg : String)
  | emptyUpdate (msg : String)
  | invalidCredential (msg : String)
  | unauthorized (msg : String)
deriving DecidableEq, Repr

/-- Creation input, from the tests' `MOCK_CREATE_USER_DTO` and spec.md §4.1:
`create(name, email, password, role?)`, role optional. -/
structure CreateUserDto where
  name : String
  email : String
  password : String
  role : Option UserRole
deriving DecidableEq, Repr

/-- Partial-fields input of `update` (spec.md §4.1); the integration tests
pass subsets of `{name, email, password, role}` including a plaintext
`password` field. -/
structure UpdateUserDto where
  name : Option String
  email : Option String
  password : Option String
  role : Option UserRole
deriving DecidableEq, Repr

/-- True when the partial-fields object carries no recognized field
(spec.md §4.1: "Fails with `EmptyUpdate` if the partial-fields object
carries no recognized field"). -/
def UpdateUserDto.isEmptyDto (d : UpdateUserDto) : Bool :=
  d.name.isNone && d.email.isNone && d.password.isNone && d.role.isNone

/-- Modelled from the spec: `UsersService.findOneByEmail(email)` — returns
the user with that (unique, case-sensitive) email or an absent marker,
never an error (spec.md §4.1). `users.service.ts` is not among the provided
sources. -/
def UsersService.findOneByEmail (s : Store) (email : String) : Option Users :=
  s.users.find? (fun u => u.email == email)

/-- Primary-key lookup used internally by the service operations. -/
def UsersService.findById (s : Store) (id : Nat) : Option Users :=
  s.users.find? (fun u => u.id == id)

/-- Modelled from the spec: `UsersService.findOne(id)` — fails with
`NotFound` ("Usuário não encontrado") if absent; result excludes the
password field (spec.md §4.1). -/
def UsersService.findOne (s : Store) (id : Nat) : Except AppError PublicUser :=
  match UsersService.findById s id with
  | none => .error (.notFoundE "Usuário não encontrado")
  | some u => .ok u.strip

/-- Modelled from the spec: `UsersService.create(dto)` — duplicate-email
check before insertion (message "Já existe um usuário com esse e-mail",
pinned by the integration tests), then hash the plaintext with the fresh
salt, persist with the generated id, defaulting role to `USER`, and return
the stored record hash included (spec.md §4.1).  The fresh random salt is
an explicit argument. -/
def UsersService.create (s : Store) (dto : CreateUserDto) (salt : String) :
    Except AppError Users × Store :=
  match UsersService.findOneByEmail s dto.email with
  | some _ => (.error (.duplicateEmail "Já existe um usuário com esse e-mail"), s)
  | none =>
    let u : Users :=
      { id := s.nextId
        name := dto.name
        email := dto.email
        password := bcrypt.hash dto.password salt
        role := dto.role.getD .USER }
    (.ok u, { users := s.users ++ [u], nextId := s.nextId + 1 })

/-- Applies the supplied partial fields to a stored record, hashing a
supplied plaintext password with the fresh salt (the integration test
"Should update an user properly" verifies the stored hash matches the new
plaintext via bcrypt.compare). -/
def applyUpdate (u : Users) (d : UpdateUserDto) (salt : String) : Users :=
  { u with
    name := d.name.getD u.name
    email := d.email.getD u.email
    password := match d.password with
      | some pw => bcrypt.hash pw salt
      | none => u.password
    role := d.role.getD u.role }

/-- Modelled from the spec: `UsersService.update(id, partialFields)` —
fails with `EmptyUpdate` ("É necessário informar ao menos um campo para
atualizar.") when no recognized field is supplied, regardless of whether
`id` exists (spec.md §8: "`update(id, {})` always fails with `EmptyUpdate`,
regardless of whether `id` exists"); then `NotFound` ("Usuário não
encontrado") on an absent id; then `DuplicateEmail` when the supplied email
collides with a different existing user; otherwise persists only the
supplied fields and returns the updated record with the password stripped
(spec.md §4.1). -/
def UsersService.update (s : Store) (id : Nat) (d : UpdateUserDto) (salt : String) :
    Except AppError PublicUser × Store :=
  if d.isEmptyDto then
    (.error (.emptyUpdate "É necessário informar ao menos um campo para atualizar."), s)
  else
    match UsersService.findById s id with
    | none => (.error (.notFoundE "Usuário não encontrado"), s)
    | some u =>
      let emailTaken : Bool :=
        match d.email with
        | some e =>
          match UsersService.findOneByEmail s e with
          | some other => other.id != u.id
          | none => false
        | none => false
      if emailTaken then
        (.error (.duplicateEmail "Já existe um usuário com esse e-mail"), s)
      else
        let u' := applyUpdate u d salt
        (.ok u'.strip,
          { users := s.users.map (fun v => if v.id == id then applyUpdate v d salt else v)
            nextId := s.nextId })

/-- Modelled from the spec: `UsersService.updatePassword(id, newPassword,
currentPassword)` — `NotFound` on an absent id; `InvalidCredential`
("Senha atual incorreta") when `currentPassword` does not match the stored
hash; on success persists a hash of `newPassword` with a newly generated
salt and returns nothing (spec.md §4.1). -/
def UsersService.updatePassword (s : Store) (id : Nat)
    (newPassword currentPassword salt : String) : Except AppError Unit × Store :=
  match UsersService.findById s id with
  | none => (.error (.notFoundE "Usuário não encontrado"), s)
  | some u =>
    if bcrypt.compare currentPassword u.password then
      (.ok (),
        { users := s.users.map
            (fun v => if v.id == id then { v with password := bcrypt.hash newPassword salt } else v)
          nextId := s.nextId })
    else
      (.error (.invalidCredential "Senha atual incorreta"), s)

/-- Modelled from the spec: `UsersService.findAll()` — returns the stored
sequence, possibly empty, never an error (spec.md §4.1). -/
def UsersService.findAll (s : Store) : List Users :=
  s.users

/-- Modelled from the spec: `UsersService.remove(id)` — `NotFound` on an
absent id, otherwise deletes the record and returns nothing (spec.md §4.1). -/
def UsersService.remove (s : Store) (id : Nat) : Except AppError Unit × Store :=
  match UsersService.findById s id with
  | none => (.error (.notFoundE "Usuário não encontrado"), s)
  | some _ => (.ok (), { users := s.users.filter (fun v => v.id != id), nextId := s.nextId })

/-- Token claim set, what `jwtService.sign` is called with: the user record
minus the password (the auth unit test asserts
`sign` is called with `mockWithoutPassword`, i.e. `{id, name, email, role}`). -/
structure JwtPayload where
  id : Nat
  name : String
  email : String
  role : UserRole
deriving DecidableEq, Repr

/-- The claim set embedded for a stored user: the record minus the password. -/
def Users.payload (u : Users) : JwtPayload :=
  ⟨u.id, u.name, u.email, u.role⟩

/-- Modelled from the spec: a signed session token — "issuer-signed payload
containing at minimum {id, email}, an issuance time, and an expiry time"
(spec.md §3).  `sig` records the signing secret; `exp` is an `Int` because
the expired-token test signs with a negative time-to-live. -/
structure Token where
  payload : JwtPayload
  iat : Nat
  exp : Int
  sig : String
deriving DecidableEq, Repr

/-- What a caller can present to `loginWithJwt`: either a structurally
well-formed signed token or a malformed string (the integration test
presents the literal `'invalidToken'`). -/
inductive TokenInput where
  | malformed (raw : String)
  | signed (t : Token)
deriving DecidableEq, Repr

/-- Modelled from the spec: `jwtService.sign(payload)` — issues a signed
token with the configured expiry window from the current time (spec.md §3,
§4.2).  Signing is deterministic in payload, clock and secret. -/
def JwtService.sign (secret : String) (now : Nat) (ttl : Int) (p : JwtPayload) : Token :=
  ⟨p, now, (now : Int) + ttl, secret⟩

/-- Modelled from the spec: `jwtService.verify(token)` — "a token is valid
only if signature verification succeeds AND current time is before expiry"
(spec.md §3); a malformed input never verifies. -/
def JwtService.verify (secret : String) (now : Nat) : TokenInput → Option JwtPayload
  | .malformed _ => none
  | .signed t => if t.sig == secret && (now : Int) < t.exp then some t.payload else none

/-- Configuration/environment of the Authentication Service: JWT signing
secret and expiry window "loaded from environment" (spec.md §6), plus the
current clock reading. -/
structure AuthEnv where
  secret : String
  now : Nat
  ttl : Int
deriving DecidableEq, Repr

/-- Decidable equality on `Except`, so that concrete service outcomes can be
checked by `decide` in the examples below. -/
instance exceptDecEq {ε α : Type} [DecidableEq ε] [DecidableEq α] :
    DecidableEq (Except ε α) := fun a b =>
  match a, b with
  | .error x, .error y =>
    if h : x = y then isTrue (by subst h; rfl) else isFalse (by intro hc; cases hc; exact h rfl)
  | .error _, .ok _ => isFalse (by intro hc; cases hc)
  | .ok _, .error _ => isFalse (by intro hc; cases hc)
  | .ok x, .ok y =>
    if h : x = y then isTrue (by subst h; rfl) else isFalse (by intro hc; cases hc; exact h rfl)

/-- Outcome of `login`, together with the number of times the flow invoked
`bcrypt.compare` (the auth unit tests assert on that call count, e.g. that
the comparison is never reached when the user is absent). -/
structure LoginOutcome where
  result : Except AppError (Token × PublicUser)
  compareCalls : Nat
deriving DecidableEq, Repr

/-- Modelled from the spec: `AuthService.login({email, password})` — look
up by email; `NotFound` ("Usuário não encontrado.") if absent, before any
hash comparison; compare the supplied password against the stored hash;
`Unauthorized` ("Senha incorreta.") on mismatch; on match sign the user
record minus password and return the token with the stripped record
(spec.md §4.2).  `auth.service.ts` is not among the provided sources; the
messages follow the claim sentences and the auth unit spec revision that
uses `NotFoundException` (the repository's test revisions disagree about
the exception class and the trailing period of the absent-user message). -/
def AuthService.login (env : AuthEnv) (s : Store) (email pw : String) : LoginOutcome :=
  match UsersService.findOneByEmail s email with
  | none => ⟨.error (.notFoundE "Usuário não encontrado."), 0⟩
  | some u =>
    if bcrypt.compare pw u.password then
      ⟨.ok (JwtService.sign env.secret env.now env.ttl u.payload, u.strip), 1⟩
    else
      ⟨.error (.unauthorized "Senha incorreta."), 1⟩

/-- Modelled from the spec: `AuthService.loginWithJwt(token)` — verify
signature and expiry, `Unauthorized` ("Token inválido ou expirado") on any
verification failure with the causes not distinguished; re-look-up the user
by the embedded email, `NotFound` ("Usuário não encontrado") if gone; issue
a fresh token over the current record and return it with the password
stripped (spec.md §4.2). -/
def AuthService.loginWithJwt (env : AuthEnv) (s : Store) (tok : TokenInput) :
    Except AppError (Token × PublicUser) :=
  match JwtService.verify env.secret env.now tok with
  | none => .error (.unauthorized "Token inválido ou expirado")
  | some p =>
    match UsersService.findOneByEmail s p.email with
    | none => .error (.notFoundE "Usuário não encontrado")
    | some u => .ok (JwtService.sign env.secret env.now env.ttl u.payload, u.strip)

/-- Concrete fixture mirroring the tests' `MOCK_CREATE_USER_DTO`
(`{name: 'test', email: 'joao@email.com', password: '123', role: USER}`). -/
def exDto : CreateUserDto :=
  ⟨"test", "joao@email.com", "123", some .USER⟩

/-- The record `create` produces for `exDto` on an empty store with salt
`"salt1"`. -/
def exUser : Users :=
  ⟨1, "test", "joao@email.com", bcrypt.hash "123" "salt1", .USER⟩

/-- An empty store whose id generator starts at 1. -/
def emptyStore : Store :=
  ⟨[], 1⟩

/-- The store holding exactly `exUser`. -/
def exStore : Store :=
  ⟨[exUser], 2⟩

/-- A concrete authentication environment: secret `"sec"`, clock at 100,
one-hour expiry window. -/
def exEnv : AuthEnv :=
  ⟨"sec", 100, 3600⟩

/-- The token `login` issues for `exUser` under `exEnv`. -/
def exToken : Token :=
  ⟨⟨1, "test", "joao@email.com", .USER⟩, 100, 3700, "sec"⟩

/-- The record `create` persists for input `dto` against store `s`: the
generated id, the dto fields, the salted password hash, and the role
defaulted to `USER`. -/
def mkCreated (s : Store) (d : CreateUserDto) (salt : String) : Users :=
  ⟨s.nextId, d.name, d.email, bcrypt.hash d.password salt, d.role.getD .USER⟩

/-- The store after a successful `create`: the new record appended, the id
generator advanced. -/
def afterCreate (s : Store) (d : CreateUserDto) (salt : String) : Store :=
  ⟨s.users ++ [mkCreated s d salt], s.nextId + 1⟩

theorem find?_append_of_none {α : Type} {p : α → Bool} {l₁ l₂ : List α}
    (h : l₁.find? p = none) : (l₁ ++ l₂).find? p = l₂.find? p := by
  rw [List.find?_append, h, Option.none_or]

theorem create_ok_destruct {s s₁ : Store} {d : CreateUserDto} {salt : String} {u : Users}
    (h : UsersService.create s d salt = (.ok u, s₁)) :
    UsersService.findOneByEmail s d.email = none ∧
      u = ⟨s.nextId, d.name, d.email, bcrypt.hash d.password salt, d.role.getD .USER⟩ ∧
      s₁ = ⟨s.users ++ [u], s.nextId + 1⟩ := by
  unfold UsersService.create at h
  cases hf : UsersService.findOneByEmail s d.email with
  | some v => rw [hf] at h; simp at h
  | none =>
    rw [hf] at h
    simp only [Prod.mk.injEq, Except.ok.injEq] at h
    obtain ⟨hu, hs⟩ := h
    exact ⟨rfl, hu.symm, by rw [← hu, ← hs]⟩

theorem render_ne_plain (pw salt : String) : (bcrypt.hash pw salt).render ≠ pw := by
  intro hc
  have hlen := congrArg String.length hc
  simp only [bcrypt.hash, BHash.render, String.length_append] at hlen
  have h7 : ("$2b$10$" : String).length = 7 := by decide
  have h1 : ("$" : String).length = 1 := by decide
  omega

/-- C1: for every email with no matching user record, `login(email,
password)` fails with `NotFound` carrying the user-not-found message
("Usuário não encontrado."), and the password comparison is never reached
(zero `bcrypt.compare` invocations). -/
theorem C1_login_absent_user_notFound (env : AuthEnv) (s : Store) (email pw : String)
    (h : UsersService.findOneByEmail s email = none) :
    AuthService.login env s email pw =
      ⟨.error (.notFoundE "Usuário não encontrado."), 0⟩ := by
  unfold AuthService.login
  rw [h]

theorem C1_login_absent_user_notFound_wit :
    UsersService.findOneByEmail emptyStore "mockuser@mail.com" = none ∧
    AuthService.login exEnv emptyStore "mockuser@mail.com" "123" =
      ⟨.error (.notFoundE "Usuário não encontrado."), 0⟩ :=
  ⟨by decide, C1_login_absent_user_notFound exEnv emptyStore "mockuser@mail.com" "123" (by decide)⟩

/-- C3: for every id and salt, `update(id, {})` with an empty
partial-fields object fails with `EmptyUpdate` ("É necessário informar ao
menos um campo para atualizar.") and returns the store unchanged, whether
or not `id` exists. -/
theorem C3_update_empty_fields (s : Store) (id : Nat) (salt : String) :
    UsersService.update s id ⟨none, none, none, none⟩ salt =
      (.error (.emptyUpdate "É necessário informar ao menos um campo para atualizar."), s) :=
  rfl

/-- C4: for every email absent from the store, `findOneByEmail` returns the
absent marker `none` (its return type `Option Users` admits no error at
all), while `findOne` on an id absent from the store fails with `NotFound`
("Usuário não encontrado"). -/
theorem C4_findOneByEmail_absent_none (s : Store) (email : String) (id : Nat)
    (he : ∀ u ∈ s.users, u.email ≠ email)
    (hi : ∀ u ∈ s.users, u.id ≠ id) :
    UsersService.findOneByEmail s email = none ∧
    UsersService.findOne s id = .error (.notFoundE "Usuário não encontrado") := by
  constructor
  · exact List.find?_eq_none.mpr (fun u hu => by simpa using he u hu)
  · unfold UsersService.findOne UsersService.findById
    rw [List.find?_eq_none.mpr (fun u hu => by simpa using hi u hu)]

/-- C5: for every pair of `create` calls with the same email, if the first
succeeds the second fails with `DuplicateEmail` ("Já existe um usuário com
esse e-mail"), the store is returned unchanged by the failed call, and it
holds exactly one record with that email. -/
theorem C5_create_duplicate_email (s s₁ : Store) (d₁ d₂ : CreateUserDto) (u : Users)
    (salt₁ salt₂ : String)
    (hemail : d₂.email = d₁.email)
    (h₁ : UsersService.create s d₁ salt₁ = (.ok u, s₁)) :
    UsersService.create s₁ d₂ salt₂ =
      (.error (.duplicateEmail "Já existe um usuário com esse e-mail"), s₁) ∧
    (s₁.users.filter (fun v => v.email == d₁.email)).length = 1 := by
  obtain ⟨hnone, hu, hs⟩ := create_ok_destruct h₁
  have huemail : u.email = d₁.email := by rw [hu]
  have hfind : UsersService.findOneByEmail s₁ d₂.email = some u := by
    rw [hemail, hs]
    unfold UsersService.findOneByEmail at hnone ⊢
    rw [find?_append_of_none hnone]
    simp [huemail]
  constructor
  · unfold UsersService.create
    rw [hfind]
  · rw [hs]
    simp only [List.filter_append]
    have hfil : s.users.filter (fun v => v.email == d₁.email) = [] := by
      rw [List.filter_eq_nil_iff]
      intro a ha
      have h := List.find?_eq_none.mp hnone a ha
      simpa using h
    rw [hfil]
    simp [huemail]

theorem C5_create_duplicate_email_wit :
    exDto.email = exDto.email ∧
    UsersService.create emptyStore exDto "salt1" = (.ok exUser, exStore) ∧
    (UsersService.create exStore exDto "salt2" =
        (.error (.duplicateEmail "Já existe um usuário com esse e-mail"), exStore) ∧
      (exStore.users.filter (fun v => v.email == exDto.email)).length = 1) :=
  ⟨rfl, by decide,
    C5_create_duplicate_email emptyStore exStore exDto exDto exUser "salt1" "salt2"
      rfl (by decide)⟩

/-- C6: for every existing user, `updatePassword` with a current password
that does not match the stored hash fails with `InvalidCredential` ("Senha
atual incorreta"), returns the store unchanged, and the stored record for
that id afterwards still verifies any password the original hash verified. -/
theorem C6_updatePassword_wrong_current (s : Store) (id : Nat) (u : Users)
    (newPw curPw salt : String)
    (hu : UsersService.findById s id = some u)
    (hc : bcrypt.compare curPw u.password = false) :
    UsersService.updatePassword s id newPw curPw salt =
      (.error (.invalidCredential "Senha atual incorreta"), s) ∧
    ∀ orig, bcrypt.compare orig u.password = true →
      ∃ v, UsersService.findById s id = some v ∧ bcrypt.compare orig v.password = true := by
  constructor
  · unfold UsersService.updatePassword
    rw [hu]
    simp [hc]
  · intro orig ho
    exact ⟨u, hu, ho⟩

theorem C6_updatePassword_wrong_current_wit :
    UsersService.findById exStore 1 = some exUser ∧
    bcrypt.compare "wrong password" exUser.password = false ∧
    UsersService.updatePassword exStore 1 "NEW_PASSWORD" "wrong password" "s2" =
      (.error (.invalidCredential "Senha atual incorreta"), exStore) :=
  ⟨by decide, by decide,
    (C6_updatePassword_wrong_current exStore 1 exUser "NEW_PASSWORD" "wrong password" "s2"
      (by decide) (by decide)).1⟩

/-- C7: for every creation input with a fresh email, `create` succeeds and
returns the record with the generated id and the salted hash of the
plaintext; the stored hash verifies the plaintext under `bcrypt.compare`
and its stored string form is never equal to the plaintext. -/
theorem C7_create_fresh_email (s : Store) (d : CreateUserDto) (salt : String)
    (h : UsersService.findOneByEmail s d.email = none) :
    UsersService.create s d salt = (.ok (mkCreated s d salt), afterCreate s d salt) ∧
    (mkCreated s d salt).id = s.nextId ∧
    (mkCreated s d salt).password = bcrypt.hash d.password salt ∧
    bcrypt.compare d.password (mkCreated s d salt).password = true ∧
    (mkCreated s d salt).password.render ≠ d.password ∧
    mkCreated s d salt ∈ (afterCreate s d salt).users := by
  refine ⟨?_, rfl, rfl, ?_, ?_, ?_⟩
  · unfold UsersService.create
    rw [h]
    rfl
  · simp [bcrypt.compare, bcrypt.hash, mkCreated]
  · exact render_ne_plain d.password salt
  · simp [afterCreate]

theorem C7_create_fresh_email_wit :
    UsersService.findOneByEmail emptyStore exDto.email = none ∧
    (UsersService.create emptyStore exDto "salt1" =
        (.ok (mkCreated emptyStore exDto "salt1"), afterCreate emptyStore exDto "salt1") ∧
      (mkCreated emptyStore exDto "salt1").id = emptyStore.nextId ∧
      (mkCreated emptyStore exDto "salt1").password = bcrypt.hash exDto.password "salt1" ∧
      bcrypt.compare exDto.password (mkCreated emptyStore exDto "salt1").password = true ∧
      (mkCreated emptyStore exDto "salt1").password.render ≠ exDto.password ∧
      mkCreated emptyStore exDto "salt1" ∈ (afterCreate emptyStore exDto "salt1").users) :=
  ⟨by decide, C7_create_fresh_email emptyStore exDto "salt1" (by decide)⟩

theorem C4_findOneByEmail_absent_none_wit :
    (∀ u ∈ exStore.users, u.email ≠ "absent@mail.com") ∧
    (∀ u ∈ exStore.users, u.id ≠ 7) ∧
    (UsersService.findOneByEmail exStore "absent@mail.com" = none ∧
      UsersService.findOne exStore 7 = .error (.notFoundE "Usuário não encontrado")) :=
  ⟨by decide, by decide,
    C4_findOneByEmail_absent_none exStore "absent@mail.com" 7 (by decide) (by decide)⟩

/-- C2 counterexample: a valid token for an existing user, presented to
`loginWithJwt`, yields a successful reissue whose token is byte-for-byte
the presented token — not a distinct one.  (Signing is deterministic in
payload, clock and secret, and here the claim set and issuance instant
coincide with the presented token's; the repository's own integration test
asserts exactly this equality, `expect(loginResult.token).toEqual(result.token)`.) -/
theorem C2_counterexample :
    AuthService.loginWithJwt exEnv exStore (.signed exToken) =
      .ok (exToken, exUser.strip) := by decide

/-- C2 (amended): for every token that verifies and whose embedded user
still exists, `loginWithJwt` returns the result of freshly signing the
current user record minus its password, together with the record with the
password field stripped; the reissued token is not necessarily distinct
from the presented one. -/
theorem C2_loginWithJwt_reissue (env : AuthEnv) (s : Store) (tok : TokenInput)
    (p : JwtPayload) (u : Users)
    (hv : JwtService.verify env.secret env.now tok = some p)
    (hu : UsersService.findOneByEmail s p.email = some u) :
    AuthService.loginWithJwt env s tok =
      .ok (JwtService.sign env.secret env.now env.ttl u.payload, u.strip) := by
  unfold AuthService.loginWithJwt
  rw [hv]
  dsimp only
  rw [hu]

theorem C2_loginWithJwt_reissue_wit :
    JwtService.verify exEnv.secret exEnv.now (.signed exToken) = some exToken.payload ∧
    UsersService.findOneByEmail exStore exToken.payload.email = some exUser ∧
    AuthService.loginWithJwt exEnv exStore (.signed exToken) =
      .ok (JwtService.sign exEnv.secret exEnv.now exEnv.ttl exUser.payload, exUser.strip) :=
  ⟨by decide, by decide,
    C2_loginWithJwt_reissue exEnv exStore (.signed exToken) exToken.payload exUser
      (by decide) (by decide)⟩

/-- C9: for every token whose verification fails, `loginWithJwt` fails with
`Unauthorized` carrying the single invalid-or-expired message ("Token
inválido ou expirado"); malformed inputs, wrong-secret signatures and
expired tokens all make verification fail, and the resulting error does not
distinguish them. -/
theorem C9_loginWithJwt_invalid_token (env : AuthEnv) (s : Store) (tok : TokenInput)
    (h : JwtService.verify env.secret env.now tok = none) :
    AuthService.loginWithJwt env s tok =
      .error (.unauthorized "Token inválido ou expirado") ∧
    (∀ raw, JwtService.verify env.secret env.now (.malformed raw) = none) ∧
    (∀ t : Token, t.sig ≠ env.secret →
      JwtService.verify env.secret env.now (.signed t) = none) ∧
    (∀ t : Token, t.exp ≤ (env.now : Int) →
      JwtService.verify env.secret env.now (.signed t) = none) := by
  refine ⟨?_, fun raw => rfl, ?_, ?_⟩
  · unfold AuthService.loginWithJwt
    rw [h]
  · intro t hne
    have hb : (t.sig == env.secret) = false := beq_eq_false_iff_ne.mpr hne
    simp [JwtService.verify, hb]
  · intro t hle
    have hb : decide ((env.now : Int) < t.exp) = false := decide_eq_false (by omega)
    simp [JwtService.verify, hb]

theorem C9_loginWithJwt_invalid_token_wit :
    JwtService.verify exEnv.secret exEnv.now (.malformed "invalidToken") = none ∧
    AuthService.loginWithJwt exEnv exStore (.malformed "invalidToken") =
      .error (.unauthorized "Token inválido ou expirado") :=
  ⟨by decide,
    (C9_loginWithJwt_invalid_token exEnv exStore (.malformed "invalidToken") (by decide)).1⟩

/-- C10: for every existing user, `update(id, fields)` with a password
field among the partial fields (and no email change) succeeds with no
current-password check: it persists the salted hash of the new plaintext
(which verifies the plaintext and whose stored string form differs from
it), keeps the record's id, and returns the updated record with the
password field stripped. -/
theorem C10_update_password_field (s : Store) (id : Nat) (u : Users)
    (d : UpdateUserDto) (pw salt : String)
    (hu : UsersService.findById s id = some u)
    (hpw : d.password = some pw)
    (hemail : d.email = none) :
    UsersService.update s id d salt =
      (.ok (applyUpdate u d salt).strip,
        ⟨s.users.map (fun v => if v.id == id then applyUpdate v d salt else v), s.nextId⟩) ∧
    (applyUpdate u d salt).password = bcrypt.hash pw salt ∧
    applyUpdate u d salt ∈
      (s.users.map (fun v => if v.id == id then applyUpdate v d salt else v)) ∧
    (applyUpdate u d salt).id = u.id ∧
    bcrypt.compare pw (applyUpdate u d salt).password = true ∧
    (applyUpdate u d salt).password.render ≠ pw := by
  have hne : d.isEmptyDto = false := by
    simp [UpdateUserDto.isEmptyDto, hpw]
  have hpassword : (applyUpdate u d salt).password = bcrypt.hash pw salt := by
    simp [applyUpdate, hpw]
  have hid : (u.id == id) = true := by
    simpa using List.find?_some hu
  refine ⟨?_, hpassword, ?_, rfl, ?_, ?_⟩
  · unfold UsersService.update
    rw [hne]
    simp only [Bool.false_eq_true, if_false]
    rw [hu, hemail]
    rfl
  · exact List.mem_map.mpr ⟨u, List.mem_of_find?_eq_some hu, by rw [hid]; simp⟩
  · rw [hpassword]
    simp [bcrypt.compare, bcrypt.hash]
  · rw [hpassword]
    exact render_ne_plain pw salt

theorem C10_update_password_field_wit :
    UsersService.findById exStore 1 = some exUser ∧
    (UpdateUserDto.mk (some "fake update name") none (some "fake update password") none).password
      = some "fake update password" ∧
    UsersService.update exStore 1
        ⟨some "fake update name", none, some "fake update password", none⟩ "s2" =
      (.ok (applyUpdate exUser
            ⟨some "fake update name", none, some "fake update password", none⟩ "s2").strip,
        ⟨exStore.users.map (fun v => if v.id == 1 then
            applyUpdate v ⟨some "fake update name", none, some "fake update password", none⟩ "s2"
          else v), exStore.nextId⟩) :=
  ⟨by decide, rfl,
    (C10_update_password_field exStore 1 exUser
      ⟨some "fake update name", none, some "fake update password", none⟩
      "fake update password" "s2" (by decide) rfl rfl).1⟩

/-- C8: round-trip — after `create` with a fresh email, `login(email, pw)`
succeeds and returns a token whose payload carries the created user's id
and email; `loginWithJwt` accepts that still-valid token and returns it
with the password-stripped record; after the underlying record is removed,
`loginWithJwt` on the still-valid token fails with `NotFound` ("Usuário
não encontrado"). -/
theorem C8_roundtrip (env : AuthEnv) (s : Store) (d : CreateUserDto) (salt : String)
    (hfresh : UsersService.findOneByEmail s d.email = none)
    (hids : ∀ v ∈ s.users, v.id < s.nextId)
    (httl : 0 < env.ttl) :
    UsersService.create s d salt = (.ok (mkCreated s d salt), afterCreate s d salt) ∧
    AuthService.login env (afterCreate s d salt) d.email d.password =
      ⟨.ok (JwtService.sign env.secret env.now env.ttl (mkCreated s d salt).payload,
        (mkCreated s d salt).strip), 1⟩ ∧
    (JwtService.sign env.secret env.now env.ttl (mkCreated s d salt).payload).payload.id =
      (mkCreated s d salt).id ∧
    (JwtService.sign env.secret env.now env.ttl (mkCreated s d salt).payload).payload.email =
      d.email ∧
    AuthService.loginWithJwt env (afterCreate s d salt)
        (.signed (JwtService.sign env.secret env.now env.ttl (mkCreated s d salt).payload)) =
      .ok (JwtService.sign env.secret env.now env.ttl (mkCreated s d salt).payload,
        (mkCreated s d salt).strip) ∧
    UsersService.remove (afterCreate s d salt) (mkCreated s d salt).id =
      (.ok (), ⟨s.users, s.nextId + 1⟩) ∧
    AuthService.loginWithJwt env ⟨s.users, s.nextId + 1⟩
        (.signed (JwtService.sign env.secret env.now env.ttl (mkCreated s d salt).payload)) =
      .error (.notFoundE "Usuário não encontrado") := by
  have hfresh' : s.users.find? (fun v => v.email == d.email) = none := hfresh
  have hfind1 : UsersService.findOneByEmail (afterCreate s d salt) d.email
      = some (mkCreated s d salt) := by
    show ((s.users ++ [mkCreated s d salt]).find? (fun v => v.email == d.email)) = _
    rw [find?_append_of_none hfresh']
    simp [mkCreated]
  have hlt : (env.now : Int) < (env.now : Int) + env.ttl := by omega
  have hd : decide ((env.now : Int) < (env.now : Int) + env.ttl) = true := decide_eq_true hlt
  have hverify : JwtService.verify env.secret env.now
      (.signed (JwtService.sign env.secret env.now env.ttl (mkCreated s d salt).payload)) =
      some (mkCreated s d salt).payload := by
    simp [JwtService.verify, JwtService.sign, hlt]
  have hcmp : bcrypt.compare d.password (mkCreated s d salt).password = true := by
    simp [bcrypt.compare, bcrypt.hash, mkCreated]
  have hlogin : AuthService.login env (afterCreate s d salt) d.email d.password =
      ⟨.ok (JwtService.sign env.secret env.now env.ttl (mkCreated s d salt).payload,
        (mkCreated s d salt).strip), 1⟩ := by
    unfold AuthService.login
    rw [hfind1]
    dsimp only
    simp [hcmp]
  have hjwt1 : AuthService.loginWithJwt env (afterCreate s d salt)
      (.signed (JwtService.sign env.secret env.now env.ttl (mkCreated s d salt).payload)) =
      .ok (JwtService.sign env.secret env.now env.ttl (mkCreated s d salt).payload,
        (mkCreated s d salt).strip) := by
    unfold AuthService.loginWithJwt
    rw [hverify]
    dsimp only
    rw [show UsersService.findOneByEmail (afterCreate s d salt)
        (mkCreated s d salt).payload.email = some (mkCreated s d salt) from hfind1]
  have hfid : UsersService.findById (afterCreate s d salt) (mkCreated s d salt).id
      = some (mkCreated s d salt) := by
    show ((s.users ++ [mkCreated s d salt]).find?
      (fun v => v.id == (mkCreated s d salt).id)) = _
    have hnone : s.users.find? (fun v => v.id == (mkCreated s d salt).id) = none := by
      apply List.find?_eq_none.mpr
      intro v hv
      have hlt2 := hids v hv
      simp [mkCreated]
      omega
    rw [find?_append_of_none hnone]
    simp
  have hremove : UsersService.remove (afterCreate s d salt) (mkCreated s d salt).id =
      (.ok (), ⟨s.users, s.nextId + 1⟩) := by
    unfold UsersService.remove
    rw [hfid]
    dsimp only
    have hfil : (s.users ++ [mkCreated s d salt]).filter
        (fun v => v.id != (mkCreated s d salt).id) = s.users := by
      rw [List.filter_append]
      have h1 : s.users.filter (fun v => v.id != (mkCreated s d salt).id) = s.users := by
        apply List.filter_eq_self.mpr
        intro v hv
        have hlt2 := hids v hv
        simp [mkCreated, bne_iff_ne]
        omega
      have h2 : ([mkCreated s d salt]).filter
          (fun v => v.id != (mkCreated s d salt).id) = [] := by simp
      rw [h1, h2, List.append_nil]
    show (Except.ok (), (⟨(s.users ++ [mkCreated s d salt]).filter
      (fun v => v.id != (mkCreated s d salt).id), s.nextId + 1⟩ : Store)) = _
    rw [hfil]
  have hjwt2 : AuthService.loginWithJwt env ⟨s.users, s.nextId + 1⟩
      (.signed (JwtService.sign env.secret env.now env.ttl (mkCreated s d salt).payload)) =
      .error (.notFoundE "Usuário não encontrado") := by
    unfold AuthService.loginWithJwt
    rw [hverify]
    dsimp only
    rw [show UsersService.findOneByEmail ⟨s.users, s.nextId + 1⟩
        (mkCreated s d salt).payload.email = none from hfresh']
  refine ⟨?_, hlogin, rfl, rfl, hjwt1, hremove, hjwt2⟩
  unfold UsersService.create
  rw [hfresh]
  rfl

theorem C8_roundtrip_wit :
    UsersService.findOneByEmail emptyStore exDto.email = none ∧
    (∀ v ∈ emptyStore.users, v.id < emptyStore.nextId) ∧
    (0 : Int) < exEnv.ttl ∧
    (UsersService.create emptyStore exDto "salt1" =
        (.ok (mkCreated emptyStore exDto "salt1"), afterCreate emptyStore exDto "salt1") ∧
      AuthService.login exEnv (afterCreate emptyStore exDto "salt1") exDto.email exDto.password =
        ⟨.ok (JwtService.sign exEnv.secret exEnv.now exEnv.ttl
            (mkCreated emptyStore exDto "salt1").payload,
          (mkCreated emptyStore exDto "salt1").strip), 1⟩ ∧
      (JwtService.sign exEnv.secret exEnv.now exEnv.ttl
          (mkCreated emptyStore exDto "salt1").payload).payload.id =
        (mkCreated emptyStore exDto "salt1").id ∧
      (JwtService.sign exEnv.secret exEnv.now exEnv.ttl
          (mkCreated emptyStore exDto "salt1").payload).payload.email = exDto.email ∧
      AuthService.loginWithJwt exEnv (afterCreate emptyStore exDto "salt1")
          (.signed (JwtService.sign exEnv.secret exEnv.now exEnv.ttl
            (mkCreated emptyStore exDto "salt1").payload)) =
        .ok (JwtService.sign exEnv.secret exEnv.now exEnv.ttl
            (mkCreated emptyStore exDto "salt1").payload,
          (mkCreated emptyStore exDto "salt1").strip) ∧
      UsersService.remove (afterCreate emptyStore exDto "salt1")
          (mkCreated emptyStore exDto "salt1").id =
        (.ok (), ⟨emptyStore.users, emptyStore.nextId + 1⟩) ∧
      AuthService.loginWithJwt exEnv ⟨emptyStore.users, emptyStore.nextId + 1⟩
          (.signed (JwtService.sign exEnv.secret exEnv.now exEnv.ttl
            (mkCreated emptyStore exDto "salt1").payload)) =
        .error (.notFoundE "Usuário não encontrado")) :=
  ⟨by decide, by decide, by decide,
    C8_roundtrip exEnv emptyStore exDto "salt1" (by decide) (by decide) (by decide)⟩
